import Mathlib

/-!
Shallow embedding of the usePopcorn application core (watched-list state,
derived aggregate statistics, selection state machine, persistence through
JSON-serialized local storage, and the movie-detail fetch lifecycle),
translated from `src/App.tsx` (the unnamed main file) and
`src/useLocalStorageState.tsx`. JavaScript numbers are modelled as exact
rationals, strings as Lean strings, optional record fields as `Option`.
-/

namespace UsePopcorn

/-- A watched-list entry, from the `WatchedMovie` type of the main file.
Every field of the TypeScript type is optional (`imdbID?`, `Title?`, ...),
so each field is an `Option`. -/
structure WatchedMovie where
  imdbID : Option String
  Title : Option String
  Year : Option String
  Poster : Option String
  runtime : Option ℚ
  imdbRating : Option ℚ
  userRating : Option ℚ
  countRatingDecisions : Option ℚ
deriving DecidableEq, Repr

/-- `const average = (arr) => arr.reduce((acc, cur, i, arr) => acc + cur / arr.length, 0);`
The callback adds `cur / arr.length` at every element, starting from 0;
`arr.length` is the length of the whole array, constant during the fold. -/
def average (arr : List ℚ) : ℚ :=
  arr.foldl (fun acc cur => acc + cur / (arr.length : ℚ)) 0

/-- The derived statistics that `WatchedSummary` renders. -/
structure WatchedSummaryData where
  count : ℕ
  avgImdbRating : ℚ
  avgUserRating : ℚ
  avgRuntime : ℚ
deriving DecidableEq, Repr

/-- The computation of `WatchedSummary`: the count is `watched.length`, and
each average maps a field over the list with `?? 0` for a missing value
before applying `average`. -/
def watchedSummary (watched : List WatchedMovie) : WatchedSummaryData :=
  { count := watched.length
    avgImdbRating := average (watched.map (fun movie => movie.imdbRating.getD 0))
    avgUserRating := average (watched.map (fun movie => movie.userRating.getD 0))
    avgRuntime := average (watched.map (fun movie => movie.runtime.getD 0)) }

/-- Modelled from the spec: the browser's `Number.prototype.toFixed(2)`
(ECMAScript: the integer `n` with `n / 100` closest to the value, ties to
the larger `n`, i.e. `n` is the floor of `100q + 1/2`, computed here on the
numerator and denominator), used by `WatchedSummary` to display each
average with two decimal places. Not repository code; the repository only
calls it. -/
def toFixed2 (q : ℚ) : String :=
  let scaled : ℤ := Int.fdiv (200 * q.num + (q.den : ℤ)) (2 * (q.den : ℤ))
  let m : ℕ := scaled.natAbs
  (if scaled < 0 then "-" else "") ++ toString (m / 100) ++ "." ++
    (if m % 100 < 10 then "0" else "") ++ toString (m % 100)

/-- `setSelectedId((selectedId) => (selectedId === id ? "" : id))` from
`handleSelectMovie`; the empty string is the no-selection sentinel. -/
def handleSelectMovie (id : String) (selectedId : String) : String :=
  if selectedId = id then "" else id

/-- `handleCloseMovie`: `setSelectedId("")`. -/
def handleCloseMovie (_selectedId : String) : String := ""

/-- The abstract selection state of the spec's state machine. -/
inductive SelState where
  | noSelection
  | selected (id : String)
deriving DecidableEq, Repr

/-- Abstraction from the code's string representation (in which `""` means
no selection, used as the render guard `selectedId ? ... : ...`) to the
spec's `SelState`. -/
def absSel (selectedId : String) : SelState :=
  if selectedId = "" then .noSelection else .selected selectedId

/-- `handleAddWatched`: `setWatched((watched) => [...watched, movie])`. -/
def handleAddWatched (movie : WatchedMovie) (watched : List WatchedMovie) :
    List WatchedMovie :=
  watched ++ [movie]

/-- `handleDeleteWatched`: `setWatched((watched) => watched.filter((w) => w.imdbID !== id))`.
An entry whose `imdbID` is absent compares unequal to any string id. -/
def handleDeleteWatched (id : String) (watched : List WatchedMovie) :
    List WatchedMovie :=
  watched.filter (fun w => w.imdbID != some id)

/-- The lookup `watched.find((w) => w.imdbID === selectedId)` in `MovieDetails`. -/
def findWatched (watched : List WatchedMovie) (selectedId : String) :
    Option WatchedMovie :=
  watched.find? (fun w => w.imdbID == some selectedId)

/-- The entry `handleAdd` constructs: `imdbID: selectedId` together with the
fields of the fetched detail record; the numeric conversions
(`Number(runtime?.split(" ")[0])`, `Number(imdbRating)`) are abstracted as
already-converted rational inputs. -/
def mkNewWatchedMovie (selectedId : String) (title year poster : Option String)
    (runtime imdbRating userRating countRatingDecisions : ℚ) : WatchedMovie :=
  { imdbID := some selectedId
    Title := title
    Year := year
    Poster := poster
    runtime := some runtime
    imdbRating := some imdbRating
    userRating := some userRating
    countRatingDecisions := some countRatingDecisions }

/-- Adding through the detail view: the rating form and its add button are
rendered only in the `watchedMovie ? ... : ...` else-branch, i.e. only when
`watched.find((w) => w.imdbID === selectedId)` found nothing; `handleAdd`
then appends the new entry via `onAddWatched` (`handleAddWatched`). -/
def movieDetailsAdd (selectedId : String) (title year poster : Option String)
    (runtime imdbRating userRating countRatingDecisions : ℚ)
    (watched : List WatchedMovie) : List WatchedMovie :=
  if (findWatched watched selectedId).isSome then watched
  else handleAddWatched
    (mkNewWatchedMovie selectedId title year poster runtime imdbRating
      userRating countRatingDecisions) watched

/-- No two entries of a watched list share an identifier. -/
def distinctIds (watched : List WatchedMovie) : Prop :=
  watched.Pairwise (fun a b => a.imdbID ≠ b.imdbID)

/-- The fold of `average` with a constant divisor accumulates the sum of the
divided elements. -/
theorem foldl_div_eq (n : ℚ) (l : List ℚ) (a : ℚ) :
    l.foldl (fun acc cur => acc + cur / n) a = a + l.sum / n := by
  induction l generalizing a with
  | nil => simp
  | cons x xs ih =>
      rw [List.foldl_cons, ih, List.sum_cons, add_div, add_assoc]

/-- `average` computes the arithmetic mean: the sum divided by the length. -/
theorem average_eq_sum_div (l : List ℚ) :
    average l = l.sum / (l.length : ℚ) := by
  rw [average, foldl_div_eq, zero_add]

/-- C9: For every watched list L, the aggregate's count equals the length
of L. -/
theorem watchedSummary_count (watched : List WatchedMovie) :
    (watchedSummary watched).count = watched.length := rfl

/-- C4: For every non-empty watched list L of length n, each of the three
averages of the aggregate equals the arithmetic mean (sum divided by n) of
the corresponding field over L, a missing field value contributing 0 to the
sum. -/
theorem watchedSummary_averages (watched : List WatchedMovie)
    (_h : watched ≠ []) :
    (watchedSummary watched).avgUserRating =
        (watched.map (fun m => m.userRating.getD 0)).sum / (watched.length : ℚ)
    ∧ (watchedSummary watched).avgImdbRating =
        (watched.map (fun m => m.imdbRating.getD 0)).sum / (watched.length : ℚ)
    ∧ (watchedSummary watched).avgRuntime =
        (watched.map (fun m => m.runtime.getD 0)).sum / (watched.length : ℚ) := by
  refine ⟨?_, ?_, ?_⟩ <;>
    simp [watchedSummary, average_eq_sum_div]

/-- A sample watched entry used by concrete instantiations. -/
def sampleEntry : WatchedMovie :=
  { imdbID := some "tt0133093"
    Title := some "The Matrix"
    Year := some "1999"
    Poster := none
    runtime := some 136
    imdbRating := some (87 / 10)
    userRating := some 9
    countRatingDecisions := some 1 }

/-- Witness for C4 at the one-entry list `[sampleEntry]`. -/
theorem watchedSummary_averages_witness :
    (watchedSummary [sampleEntry]).avgUserRating =
        ([sampleEntry].map (fun m => m.userRating.getD 0)).sum /
          (([sampleEntry] : List WatchedMovie).length : ℚ)
    ∧ (watchedSummary [sampleEntry]).avgImdbRating =
        ([sampleEntry].map (fun m => m.imdbRating.getD 0)).sum /
          (([sampleEntry] : List WatchedMovie).length : ℚ)
    ∧ (watchedSummary [sampleEntry]).avgRuntime =
        ([sampleEntry].map (fun m => m.runtime.getD 0)).sum /
          (([sampleEntry] : List WatchedMovie).length : ℚ) :=
  watchedSummary_averages [sampleEntry] (by decide)

/-- C10: The aggregate is total on the empty watched list: count 0 and each
average exactly 0 (no division happens: the fold over the empty list
returns its initial accumulator 0), displayed as "0.00". -/
theorem watchedSummary_empty :
    watchedSummary [] =
      { count := 0, avgImdbRating := 0, avgUserRating := 0, avgRuntime := 0 }
    ∧ toFixed2 (watchedSummary []).avgImdbRating = "0.00"
    ∧ toFixed2 (watchedSummary []).avgUserRating = "0.00"
    ∧ toFixed2 (watchedSummary []).avgRuntime = "0.00" := by
  refine ⟨rfl, ?_, ?_, ?_⟩ <;> decide

/-- A second sample watched entry with a different identifier. -/
def sampleEntryB : WatchedMovie :=
  { imdbID := some "tt0000001"
    Title := some "Carmencita"
    Year := some "1894"
    Poster := none
    runtime := some 1
    imdbRating := some (57 / 10)
    userRating := some 3
    countRatingDecisions := some 2 }

/-- C7: `select(id)` maps `Selected(id)` to `NoSelection` and every other
state to `Selected(id)`; `close()` maps every state to `NoSelection`; and
from any state other than `Selected(id)`, `select(id)` twice in succession
returns the selection to `NoSelection`. The identifier is a movie
identifier, hence not the empty string (the code's no-selection
sentinel). -/
theorem selection_state_machine (id s : String) (hid : id ≠ "") :
    absSel (handleSelectMovie id s) =
      (if absSel s = SelState.selected id then SelState.noSelection
       else SelState.selected id)
    ∧ absSel (handleCloseMovie s) = SelState.noSelection
    ∧ (absSel s ≠ SelState.selected id →
        absSel (handleSelectMovie id (handleSelectMovie id s)) =
          SelState.noSelection) := by
  refine ⟨?_, by simp [handleCloseMovie, absSel], ?_⟩
  · by_cases h : s = id
    · subst h
      simp [handleSelectMovie, absSel, hid]
    · by_cases hs : s = ""
      · subst hs
        simp [handleSelectMovie, absSel, hid, h]
      · simp [handleSelectMovie, absSel, h, hs, hid]
  · intro hne
    by_cases h : s = id
    · subst h
      simp [absSel, hid] at hne
    · simp [handleSelectMovie, absSel, h, hid]

/-- Witness for C7: from `NoSelection`, selecting "m1" twice lands back on
`NoSelection`. -/
theorem selection_state_machine_witness :
    absSel (handleSelectMovie "m1" (handleSelectMovie "m1" "")) =
      SelState.noSelection :=
  (selection_state_machine "m1" "" (by decide)).2.2 (by decide)

/-- C6: on a watched list with pairwise-distinct identifiers,
`handleDeleteWatched id` leaves the list unchanged when no entry carries
`id`, and removes exactly the entry carrying `id` — the surrounding
entries survive unchanged, in their original relative order. -/
theorem handleDeleteWatched_exact (id : String) (L : List WatchedMovie)
    (h : distinctIds L) :
    ((∀ e ∈ L, e.imdbID ≠ some id) → handleDeleteWatched id L = L)
    ∧ ∀ l1 l2 e, L = l1 ++ e :: l2 → e.imdbID = some id →
        handleDeleteWatched id L = l1 ++ l2 := by
  constructor
  · intro hall
    rw [handleDeleteWatched, List.filter_eq_self]
    intro a ha
    simpa using hall a ha
  · intro l1 l2 e hL he
    subst hL
    obtain ⟨h1, h2, hcross⟩ := List.pairwise_append.mp h
    obtain ⟨hel2, _⟩ := List.pairwise_cons.mp h2
    rw [handleDeleteWatched, List.filter_append, List.filter_cons]
    have hpe : (e.imdbID != some id) = false := by simp [he]
    rw [hpe]
    have hl1 : List.filter (fun w => w.imdbID != some id) l1 = l1 := by
      rw [List.filter_eq_self]
      intro a ha
      have : a.imdbID ≠ e.imdbID := hcross a ha e (List.mem_cons_self e l2)
      simpa [he] using this
    have hl2 : List.filter (fun w => w.imdbID != some id) l2 = l2 := by
      rw [List.filter_eq_self]
      intro b hb
      have : e.imdbID ≠ b.imdbID := hel2 b hb
      simpa [he] using (Ne.symm this)
    rw [hl1, hl2]
    simp

/-- Witness for C6: deleting "tt0000001" from a two-entry list removes the
second entry and keeps the first. -/
theorem handleDeleteWatched_exact_witness :
    handleDeleteWatched "tt0000001" [sampleEntry, sampleEntryB] =
      [sampleEntry] :=
  (handleDeleteWatched_exact "tt0000001" [sampleEntry, sampleEntryB]
      (by simp [distinctIds, sampleEntry, sampleEntryB])).2
    [sampleEntry] [] sampleEntryB rfl rfl

/-- C8: starting from a watched list with pairwise-distinct identifiers,
both operations — adding through the detail view (guarded by the
`watchedMovie` lookup: the rating form only renders when the selected
identifier is not in the list) and deleting by identifier — preserve
pairwise-distinct identifiers. -/
theorem watched_distinct_preserved (watched : List WatchedMovie)
    (h : distinctIds watched) (selectedId : String)
    (title year poster : Option String)
    (runtime imdbRating userRating countRatingDecisions : ℚ) (id : String) :
    distinctIds (movieDetailsAdd selectedId title year poster runtime
      imdbRating userRating countRatingDecisions watched)
    ∧ distinctIds (handleDeleteWatched id watched) := by
  constructor
  · rw [movieDetailsAdd]
    split
    · exact h
    · rename_i hfind
      have hnone : findWatched watched selectedId = none := by
        cases hf : findWatched watched selectedId with
        | none => rfl
        | some w => exact absurd (by simp [hf]) hfind
      have hnot : ∀ w ∈ watched, w.imdbID ≠ some selectedId := by
        intro w hw
        have := List.find?_eq_none.mp hnone w hw
        simpa using this
      rw [handleAddWatched, distinctIds, List.pairwise_append]
      refine ⟨h, List.pairwise_singleton _ _, ?_⟩
      intro a ha b hb
      have hb' : b = mkNewWatchedMovie selectedId title year poster runtime
          imdbRating userRating countRatingDecisions := by simpa using hb
      subst hb'
      simpa [mkNewWatchedMovie] using hnot a ha
  · exact List.Pairwise.sublist (List.filter_sublist watched) h

/-- Witness for C8 on a one-entry list: adding a new identifier and
deleting an absent identifier both keep identifiers distinct. -/
theorem watched_distinct_preserved_witness :
    distinctIds (movieDetailsAdd "tt0000001" none none none 1 (57 / 10) 3 2
      [sampleEntry])
    ∧ distinctIds (handleDeleteWatched "tt9999999" [sampleEntry]) :=
  watched_distinct_preserved [sampleEntry] (by simp [distinctIds])
    "tt0000001" none none none 1 (57 / 10) 3 2 "tt9999999"

/-- A JSON value, the result of `JSON.parse` / the argument of
`JSON.stringify`. -/
inductive JValue where
  | null
  | bool (b : Bool)
  | num (q : ℚ)
  | str (s : String)
  | arr (elems : List JValue)
  | obj (fields : List (String × JValue))

/-- One field of a serialized object: `JSON.stringify` writes a key only
when the (optional) field is present — an `undefined` field is dropped. -/
def optField (k : String) : Option JValue → List (String × JValue)
  | none => []
  | some v => [(k, v)]

/-- `JSON.stringify` on one `WatchedMovie` record, at the JSON-value level:
the present fields among the eight of the type, strings as JSON strings and
numbers as JSON numbers. -/
def encodeEntry (m : WatchedMovie) : JValue :=
  .obj (optField "imdbID" (m.imdbID.map .str)
    ++ optField "Title" (m.Title.map .str)
    ++ optField "Year" (m.Year.map .str)
    ++ optField "Poster" (m.Poster.map .str)
    ++ optField "runtime" (m.runtime.map .num)
    ++ optField "imdbRating" (m.imdbRating.map .num)
    ++ optField "userRating" (m.userRating.map .num)
    ++ optField "countRatingDecisions" (m.countRatingDecisions.map .num))

/-- `JSON.stringify` on the whole watched list. -/
def encodeWatched (L : List WatchedMovie) : JValue :=
  .arr (L.map encodeEntry)

/-- Reading a property of a parsed JSON object: the first binding of the
key, or `undefined` (`none`) when the key is absent. -/
def getField : List (String × JValue) → String → Option JValue
  | [], _ => none
  | (k, v) :: rest, key => if key = k then some v else getField rest key

/-- A property access expected to be a string: anything else reads back as
absent. -/
def asStr : Option JValue → Option String
  | some (.str s) => some s
  | _ => none

/-- A property access expected to be a number. -/
def asNum : Option JValue → Option ℚ
  | some (.num q) => some q
  | _ => none

/-- Reading a parsed JSON value back as a `WatchedMovie` record (the
structural content of "the parsed value equals the original entry"). -/
def decodeEntry : JValue → Option WatchedMovie
  | .obj fields => some
      { imdbID := asStr (getField fields "imdbID")
        Title := asStr (getField fields "Title")
        Year := asStr (getField fields "Year")
        Poster := asStr (getField fields "Poster")
        runtime := asNum (getField fields "runtime")
        imdbRating := asNum (getField fields "imdbRating")
        userRating := asNum (getField fields "userRating")
        countRatingDecisions := asNum (getField fields "countRatingDecisions") }
  | _ => none

/-- Reading back each element of a parsed JSON array. -/
def decodeEntries : List JValue → Option (List WatchedMovie)
  | [] => some []
  | v :: vs =>
      match decodeEntry v, decodeEntries vs with
      | some m, some ms => some (m :: ms)
      | _, _ => none

/-- Reading a parsed JSON value back as a watched list. -/
def decodeWatched : JValue → Option (List WatchedMovie)
  | .arr vs => decodeEntries vs
  | _ => none

/-- The raw content of the local-storage slot: either a string written by
`JSON.stringify` (kept at the JSON-value level) or a pre-existing string
that is not valid JSON. -/
inductive StoredVal where
  | json (v : JValue)
  | garbage (s : String)

/-- Modelled from the spec: the platform's `JSON.parse` applied to
`localStorage.getItem(key)!`. An absent key yields `null`, which
`JSON.parse` coerces to the string "null" and parses to the JSON null
value; a stringified value parses back to that value; a non-JSON string
throws a `SyntaxError`. Not repository code; the repository only calls
it. -/
def jsonParse : Option StoredVal → Except String JValue
  | none => .ok .null
  | some (.json v) => .ok v
  | some (.garbage s) =>
      .error ("SyntaxError: Unexpected token in JSON: " ++ s)

/-- The `??` operator: the parsed value unless it is null. -/
def nullishDefault (v : JValue) (initialState : JValue) : JValue :=
  match v with
  | .null => initialState
  | v => v

/-- The `useState` initializer of `useLocalStorageState`:
`() => JSON.parse(localStorage.getItem(key)!) ?? initialState`. There is
no try/catch: a parse failure is an exception escaping the initializer
(the `.error` case), not a recovered value. -/
def loadWatched (stored : Option StoredVal) (initialState : JValue) :
    Except String JValue :=
  match jsonParse stored with
  | .error e => .error e
  | .ok v => .ok (nullishDefault v initialState)

/-- The persistence effect of `useLocalStorageState`:
`localStorage.setItem(key, JSON.stringify(value))` — the entire list
serialized, overwriting the slot. -/
def saveWatched (L : List WatchedMovie) : Option StoredVal :=
  some (.json (encodeWatched L))

/-- C2 evaluation: with no prior stored value, the initializer does return
the empty-list initial state; but on an unparseable stored value the
initializer propagates the `JSON.parse` exception instead of recovering to
the empty list. -/
theorem loadWatched_parse_failure :
    loadWatched none (encodeWatched []) = .ok (encodeWatched [])
    ∧ loadWatched (some (StoredVal.garbage "oops")) (encodeWatched []) =
        .error "SyntaxError: Unexpected token in JSON: oops"
    ∧ loadWatched (some (StoredVal.garbage "oops")) (encodeWatched []) ≠
        .ok (encodeWatched []) := by
  refine ⟨rfl, rfl, ?_⟩
  simp [loadWatched, jsonParse]

set_option maxHeartbeats 4000000 in
/-- Serialize-then-read-back is the identity on one entry. -/
theorem decodeEntry_encodeEntry (m : WatchedMovie) :
    decodeEntry (encodeEntry m) = some m := by
  obtain ⟨i, t, y, p, r, ir, ur, c⟩ := m
  cases i <;> cases t <;> cases y <;> cases p <;> cases r <;> cases ir <;>
    cases ur <;> cases c <;> rfl

/-- Serialize-then-read-back is the identity on entry lists. -/
theorem decodeEntries_encode (L : List WatchedMovie) :
    decodeEntries (L.map encodeEntry) = some L := by
  induction L with
  | nil => rfl
  | cons m ms ih => simp [decodeEntries, decodeEntry_encodeEntry, ih]

/-- C5: loading right after saving a watched list L yields exactly the
serialized form of L (the `?? initialState` default is not taken), and
reading that value back gives L — no entry and no field is lost or
altered by the round trip. -/
theorem load_after_save (L : List WatchedMovie) (init : JValue) :
    loadWatched (saveWatched L) init = .ok (encodeWatched L)
    ∧ decodeWatched (encodeWatched L) = some L := by
  exact ⟨rfl, decodeEntries_encode L⟩

/-- The observable state of the `MovieDetails` component around its fetch
effect: the current `selectedId` prop, the `movie` and `isLoading` state
hooks, the identifiers of in-flight `getMovieDetails` requests, and
whether an async rejection has escaped unhandled. The component declares
no error state at all. -/
structure DetailState where
  selectedId : String
  movie : JValue
  isLoading : Bool
  pending : List String
  uncaught : Bool

/-- An event of the fetch lifecycle: the selection changing (re-running the
effect), or the network promise of an earlier request settling with parsed
data or with a failure (network error, or a body `res.json()` cannot
parse; the code never consults `res.ok`, so a non-success HTTP status with
a readable body also settles through `resolveOk` with whatever payload the
server sent). -/
inductive DetailEvent where
  | select (id : String)
  | resolveOk (id : String) (data : JValue)
  | resolveFail (id : String)

/-- One step of the `MovieDetails` fetch effect
(`useEffect(..., [selectedId])`):
on a selection change the effect runs `setIsLoading(true)` and issues a
request for the new id; when a request's promise fulfills the effect runs
`setMovie(data); setIsLoading(false)` unconditionally — there is no
cleanup function and no check that the response still matches the current
`selectedId`; when it rejects, the absence of any try/catch means neither
`setMovie` nor `setIsLoading(false)` runs and the rejection escapes. -/
def detailStep (s : DetailState) (e : DetailEvent) : DetailState :=
  match e with
  | .select id =>
      { s with selectedId := id, isLoading := true,
               pending := s.pending ++ [id] }
  | .resolveOk id data =>
      if s.pending.contains id then
        { s with movie := data, isLoading := false,
                 pending := s.pending.erase id }
      else s
  | .resolveFail id =>
      if s.pending.contains id then
        { s with pending := s.pending.erase id, uncaught := true }
      else s

/-- Mounting `MovieDetails` with a selected id: `useState({})` for the
movie, then the effect fires once for the initial id. -/
def mountDetail (id : String) : DetailState :=
  { selectedId := id, movie := .obj [], isLoading := true,
    pending := [id], uncaught := false }

/-- Running the fetch lifecycle over a sequence of events. -/
def detailRun (s : DetailState) (es : List DetailEvent) : DetailState :=
  es.foldl detailStep s

/-- The interleaving refuting C1: select "A" (mount), select "B" while A is
in flight, B's response arrives, then A's stale response arrives. -/
def staleTrace : List DetailEvent :=
  [.select "B", .resolveOk "B" (.str "data for B"), .resolveOk "A" (.str "data for A")]

/-- C1 evaluation: after `staleTrace` the current selection is "B", yet the
detail state shown is A's late response — the stale response is applied,
not discarded. -/
theorem stale_response_applied :
    (detailRun (mountDetail "A") staleTrace).selectedId = "B"
    ∧ (detailRun (mountDetail "A") staleTrace).movie =
        JValue.str "data for A"
    ∧ (detailRun (mountDetail "A") staleTrace).movie ≠
        JValue.str "data for B" := by
  refine ⟨rfl, rfl, ?_⟩
  intro h
  have : "data for A" = "data for B" := by
    have h' : JValue.str "data for A" = JValue.str "data for B" := h
    injection h'
  simp at this

/-- C3 evaluation: when the single in-flight request fails, the loading
flag stays true forever (it was set before the request and is never reset)
and the rejection escapes uncaught; no error state exists to surface a
message. -/
theorem detail_fetch_failure_unhandled :
    (detailRun (mountDetail "A") [.resolveFail "A"]).isLoading = true
    ∧ (detailRun (mountDetail "A") [.resolveFail "A"]).uncaught = true
    ∧ (detailRun (mountDetail "A") [.resolveFail "A"]).movie = JValue.obj [] :=
  ⟨rfl, rfl, rfl⟩

end UsePopcorn
